import Mathlib

/-!
Shallow embedding of the viz-observer position-tracking engine.

Two engines from the repository are embedded:
* the class-based `VisualObserver` (TypeScript sources), with its
  `#elements` map, `#refreshElement`, `#onIntersection` and `#resizeObserver`
  callbacks;
* the legacy closure-based `vizObserver` (index.js), with its `refresh`
  closure, IntersectionObserver callback and idempotent cleanup function.

Coordinates and visibility ratios are modelled as rationals; `Math.floor`
becomes `Int.floor`.  IntersectionObserver handles are instrumented with
fresh numeric subscription ids so that "live subscription" invariants are
expressible; a state-wide `live` list records the ids of the subscriptions
that have been created and not yet disconnected.
-/

namespace VizObserver

/-- A rectangle as returned by `getBoundingClientRect` /
`DOMRectReadOnly.fromRect` (left/x, top/y, width, height). -/
structure Rect where
  left : ℚ
  top : ℚ
  width : ℚ
  height : ℚ
  deriving DecidableEq, Repr

/-- The four floored rootMargin insets of an IntersectionObserver
configuration (they appear negated in the `rootMargin` string). -/
structure Insets where
  top : ℤ
  right : ℤ
  bottom : ℤ
  left : ℤ
  deriving DecidableEq, Repr

/-- Configuration an IntersectionObserver is constructed with. -/
structure IOConfig where
  insets : Insets
  threshold : ℚ
  deriving DecidableEq, Repr

/-- Per-element record stored in the `#elements` map
(`{io, threshold, isFirstUpdate}`).  The live IntersectionObserver handle
is modelled as a numeric subscription id paired with its configuration. -/
structure VOElement where
  io : Option (Nat × IOConfig)
  threshold : ℚ
  isFirstUpdate : Bool
  deriving DecidableEq, Repr

/-- One `VisualObserverEntry` delivered to the consumer callback. -/
structure VOEntry where
  target : Nat
  contentRect : Rect
  isAppearing : Bool
  deriving DecidableEq, Repr

/-- Engine state: the insertion-ordered `#elements` map, the cached
`#rootRect`, the ResizeObserver registrations, and the instrumented pool of
live IntersectionObserver subscription ids (`nextId` is the next fresh id). -/
structure VOState where
  elements : List (Nat × VOElement)
  rootRect : Rect
  roTargets : List Nat
  rootObserved : Bool
  nextId : Nat
  live : List Nat
  deriving DecidableEq, Repr

/-- Ambient DOM queries used by the engine: identity of the root element,
the root's scroll offsets, and on-demand `getBoundingClientRect`
measurement of a target. -/
structure VOEnv where
  rootId : Nat
  scrollLeft : ℚ
  scrollTop : ℚ
  measure : Nat → Rect

/-- `Map.get` on the insertion-ordered association list. -/
def lookupEl : List (Nat × VOElement) → Nat → Option VOElement
  | [], _ => none
  | p :: ps, t => if p.1 = t then some p.2 else lookupEl ps t

/-- Mutation of the record stored under key `t` (JS object identity: the
record in the map is updated in place). -/
def mapAt (l : List (Nat × VOElement)) (t : Nat) (f : VOElement → VOElement) :
    List (Nat × VOElement) :=
  l.map fun p => if p.1 = t then (p.1, f p.2) else p

/-- Overwrite the whole record stored under key `t`. -/
def updateEl (l : List (Nat × VOElement)) (t : Nat) (el : VOElement) :
    List (Nat × VOElement) :=
  mapAt l t fun _ => el

/-- `el.isFirstUpdate = b` executed on the record stored in the map. -/
def setFirstUpdate (st : VOState) (t : Nat) (b : Bool) : VOState :=
  { st with elements := mapAt st.elements t fun el => { el with isFirstUpdate := b } }

/-- The `0.0000001` substituted for an observed ratio of exactly `0.0`
("just needs to be non-zero"). -/
def calEps : ℚ := 1 / 10000000

/-- `el.io?.disconnect()`: remove the (optional) subscription id from the
pool of live subscriptions. -/
def dropIo (live : List Nat) : Option (Nat × IOConfig) → List Nat
  | some (i, _) => live.erase i
  | none => live

/-- Document-relative translation: `x = left + scrollLeft`,
`y = top + scrollTop`, size unchanged. -/
def translateRect (scrollLeft scrollTop : ℚ) (r : Rect) : Rect :=
  { left := r.left + scrollLeft, top := r.top + scrollTop,
    width := r.width, height := r.height }

/-- The inset computation of `#refreshElement`:
`floor(y)`, `floor(rootW - (x + w))`, `floor(rootH - (y + h))`, `floor(x)`,
each edge floored independently. -/
def computeInsets (rootW rootH x y w h : ℚ) : Insets :=
  { top := ⌊y⌋, right := ⌊rootW - (x + w)⌋, bottom := ⌊rootH - (y + h)⌋,
    left := ⌊x⌋ }

/-- `#refreshElement(target, contentRect)`.  `none` models the
fail-loudly path taken when the target has no record in `#elements`.
Otherwise: disconnect and null the existing IntersectionObserver; if the
box is degenerate (width and height both zero) emit a non-appearing entry
with the rect as measured and stop; else translate to document coordinates,
compute the floored insets, capture the current threshold, reset
`threshold` to 1 and `isFirstUpdate` to true, install a fresh
IntersectionObserver with the captured threshold, and emit the appearing
entry. -/
def refreshElement (env : VOEnv) (st : VOState) (t : Nat) (contentRect : Rect) :
    Option (VOState × VOEntry) :=
  match lookupEl st.elements t with
  | none => none
  | some el =>
    let live := dropIo st.live el.io
    let el := { el with io := none }
    if contentRect.width = 0 ∧ contentRect.height = 0 then
      some ({ st with elements := updateEl st.elements t el, live := live },
            { target := t, contentRect := contentRect, isAppearing := false })
    else
      let x := contentRect.left + env.scrollLeft
      let y := contentRect.top + env.scrollTop
      let insets := computeInsets st.rootRect.width st.rootRect.height x y
        contentRect.width contentRect.height
      let thr := el.threshold
      let el : VOElement :=
        { io := some (st.nextId, { insets := insets, threshold := thr }),
          threshold := 1, isFirstUpdate := true }
      some ({ st with elements := updateEl st.elements t el,
                      live := live ++ [st.nextId],
                      nextId := st.nextId + 1 },
            { target := t,
              contentRect := { left := x, top := y,
                               width := contentRect.width,
                               height := contentRect.height },
              isAppearing := true })

/-- `this.#callback([this.#refreshElement(target, boundingClientRect)], this)`
followed by the trailing `el.isFirstUpdate = false` of `#onIntersection`. -/
def deliverRefresh (env : VOEnv) (st1 : VOState) (t : Nat) (bcr : Rect) :
    VOState × List (List VOEntry) :=
  match refreshElement env st1 t bcr with
  | none => (st1, [])
  | some (st2, entry) => (setFirstUpdate st2 t false, [[entry]])

/-- `#onIntersection`: look up the element (silently return when
untracked); when the observed ratio differs from the stored threshold,
calibrate the threshold on a first update (epsilon for an exact `0.0`
reading), refresh with the notification's boundingClientRect, and invoke
the consumer callback with that single entry; finally clear
`isFirstUpdate` on the record.  The second component lists the consumer
callback invocations performed. -/
def onIntersection (env : VOEnv) (st : VOState) (t : Nat) (ratio : ℚ)
    (bcr : Rect) : VOState × List (List VOEntry) :=
  match lookupEl st.elements t with
  | none => (st, [])
  | some el =>
    if ratio ≠ el.threshold then
      let st1 :=
        if el.isFirstUpdate then
          let el1 := { el with threshold := if ratio = 0 then calEps else ratio }
          { st with elements := updateEl st.elements t el1 }
        else st
      deliverRefresh env st1 t bcr
    else
      (setFirstUpdate st t false, [])

/-- Sequentially refresh a list of targets with freshly measured rects,
collecting the produced entries in order. -/
def refreshMany (env : VOEnv) : VOState → List Nat →
    Option (VOState × List VOEntry)
  | st, [] => some (st, [])
  | st, t :: ts =>
    match refreshElement env st t (env.measure t) with
    | none => none
    | some (st1, e) =>
      match refreshMany env st1 ts with
      | none => none
      | some (st2, es) => some (st2, e :: es)

/-- The ResizeObserver callback: if some notification targets the root,
cache its contentRect as the new `#rootRect` and refresh every tracked
element in map-iteration order; otherwise refresh exactly the notified
targets in notification order.  Either way the collected entries are
delivered to the consumer in one callback invocation. -/
def onResize (env : VOEnv) (st : VOState) (entries : List (Nat × Rect)) :
    Option (VOState × List (List VOEntry)) :=
  match entries.find? (fun e => e.1 == env.rootId) with
  | some rootEntry =>
    let st1 := { st with rootRect := rootEntry.2 }
    match refreshMany env st1 (st1.elements.map Prod.fst) with
    | none => none
    | some (st2, es) => some (st2, [es])
  | none =>
    match refreshMany env st (entries.map Prod.fst) with
    | none => none
    | some (st2, es) => some (st2, [es])

/-- `observe(target)`: no-op when already tracked; otherwise, when this is
the first element, register the root with the ResizeObserver; insert the
fresh record and register the target with the ResizeObserver. -/
def observe (st : VOState) (t : Nat) : VOState :=
  if (lookupEl st.elements t).isSome then st
  else
    let st1 := if st.elements.length = 0 then { st with rootObserved := true } else st
    { st1 with
        elements := st1.elements ++ [(t, { io := none, threshold := 1, isFirstUpdate := true })],
        roTargets := if t ∈ st1.roTargets then st1.roTargets else st1.roTargets ++ [t] }

/-- `unobserve(target)`: no-op when untracked; otherwise deregister from
the ResizeObserver, disconnect and null the IntersectionObserver, delete
the record, and when the map became empty disconnect the ResizeObserver
entirely. -/
def unobserve (st : VOState) (t : Nat) : VOState :=
  match lookupEl st.elements t with
  | none => st
  | some el =>
    let live := dropIo st.live el.io
    let st2 : VOState :=
      { st with roTargets := st.roTargets.erase t,
                live := live,
                elements := st.elements.filter fun p => p.1 != t }
    if st2.elements.length = 0 then
      { st2 with roTargets := [], rootObserved := false }
    else st2

/-- `disconnect()`: disconnect every element's IntersectionObserver, clear
the map, and disconnect the ResizeObserver. -/
def disconnect (st : VOState) : VOState :=
  let live := st.elements.foldl (fun acc p => dropIo acc p.2.io) st.live
  { st with elements := [], live := live, roTargets := [], rootObserved := false }

/-- Engine state at construction time (`#rootRect` initialised from the
root's bounding rect). -/
def initState (rootRect0 : Rect) : VOState :=
  { elements := [], rootRect := rootRect0, roTargets := [],
    rootObserved := false, nextId := 0, live := [] }

/-- One externally triggered event of the engine's single callback queue. -/
inductive VOEvent where
  | observeEv (t : Nat)
  | unobserveEv (t : Nat)
  | disconnectEv
  | resizeEv (env : VOEnv) (entries : List (Nat × Rect))
  | intersectEv (env : VOEnv) (t : Nat) (ratio : ℚ) (bcr : Rect)

/-- Apply one event to the state (outputs discarded). -/
def stepEvent (st : VOState) : VOEvent → Option VOState
  | .observeEv t => some (observe st t)
  | .unobserveEv t => some (unobserve st t)
  | .disconnectEv => some (disconnect st)
  | .resizeEv env entries => (onResize env st entries).map Prod.fst
  | .intersectEv env t ratio bcr => some (onIntersection env st t ratio bcr).1

/-- Run a sequence of events. -/
def runEvents : VOState → List VOEvent → Option VOState
  | st, [] => some st
  | st, ev :: evs =>
    match stepEvent st ev with
    | none => none
    | some st1 => runEvents st1 evs

/-- Platform guarantee: visibility ratios delivered by the
IntersectionObserver lie in `[0, 1]`. -/
def validEvent : VOEvent → Prop
  | .intersectEv _ _ ratio _ => 0 ≤ ratio ∧ ratio ≤ 1
  | _ => True

/-- All stored thresholds lie in `(0, 1]`. -/
def ThInvL (l : List (Nat × VOElement)) : Prop :=
  ∀ p ∈ l, 0 < p.2.threshold ∧ p.2.threshold ≤ 1

/-- The `baselineThreshold` invariant on an engine state. -/
def ThresholdInv (st : VOState) : Prop :=
  ThInvL st.elements

/-! ### The legacy closure-based engine (`vizObserver`, index.js) -/

/-- The payload of the legacy consumer callback
(`{appear, x, y, width, height}`). -/
structure JsRect where
  appear : Bool
  x : ℚ
  y : ℚ
  width : ℚ
  height : ℚ
  deriving DecidableEq, Repr

/-- Configuration of the IntersectionObserver created by `refresh`. -/
structure JsIoCfg where
  insetTop : ℤ
  insetRight : ℤ
  insetBottom : ℤ
  insetLeft : ℤ
  threshold : ℚ
  deriving DecidableEq, Repr

/-- The live state captured by the `refresh` closure of index.js: the
`threshold` parameter, the per-refresh `isFirstUpdate` flag, and the
IntersectionObserver the closure installed. -/
structure JsClosure where
  threshold : ℚ
  isFirstUpdate : Bool
  io : JsIoCfg
  deriving DecidableEq, Repr

/-- Ambient DOM state read by `refresh`: the element's current bounding
rect, `scrollingElement` offsets, and the root's offsetWidth/offsetHeight. -/
structure JsEnv where
  rect : Rect
  scrollTop : ℚ
  scrollLeft : ℚ
  rootW : ℚ
  rootH : ℚ
  deriving DecidableEq, Repr

/-- `refresh(threshold)`: disconnect and null the current
IntersectionObserver, re-measure the element; on a degenerate box
(`!rect.width || !rect.height`) deliver exactly
`{appear: false, x: 0, y: 0, width: 0, height: 0}` and return without
creating a subscription; otherwise deliver the document-relative rect with
`appear: true`, compute the floored insets and install a fresh
IntersectionObserver (a fresh closure with `isFirstUpdate = true`) at the
given threshold. -/
def jsRefresh (env : JsEnv) (threshold : ℚ) : Option JsClosure × List JsRect :=
  let top := env.rect.top + env.scrollTop
  let left := env.rect.left + env.scrollLeft
  if env.rect.width = 0 ∨ env.rect.height = 0 then
    (none, [{ appear := false, x := 0, y := 0, width := 0, height := 0 }])
  else
    let insetTop := ⌊top⌋
    let insetLeft := ⌊left⌋
    let insetRight := ⌊env.rootW - (left + env.rect.width)⌋
    let insetBottom := ⌊env.rootH - (top + env.rect.height)⌋
    (some { threshold := threshold, isFirstUpdate := true,
            io := { insetTop := insetTop, insetRight := insetRight,
                    insetBottom := insetBottom, insetLeft := insetLeft,
                    threshold := threshold } },
     [{ appear := true, x := left, y := top,
        width := env.rect.width, height := env.rect.height }])

/-- The IntersectionObserver callback of index.js: when the observed ratio
differs from the closure's threshold, a non-first update performs
`refresh()` at the default full threshold `1.0`, while a first update
performs `refresh(update)` at the observed ratio (epsilon substituted for
an exact `0.0`); an agreeing ratio just clears `isFirstUpdate`. -/
def jsOnIntersection (env : JsEnv) (c : JsClosure) (ratio : ℚ) :
    Option JsClosure × List JsRect :=
  if ratio ≠ c.threshold then
    if ¬ c.isFirstUpdate then
      jsRefresh env 1
    else
      let update := if ratio = 0 then calEps else ratio
      jsRefresh env update
  else
    (some { c with isFirstUpdate := false }, [])

/-- Deliver a sequence of visibility-ratio readings to the live closure
(readings are only delivered while an IntersectionObserver is installed),
counting the consumer callback invocations performed. -/
def jsRunAux (env : JsEnv) : Option JsClosure → List ℚ → Option JsClosure × Nat
  | c, [] => (c, 0)
  | none, _ :: rs => jsRunAux env none rs
  | some c, r :: rs =>
    let step := jsOnIntersection env c r
    let rest := jsRunAux env step.1 rs
    (rest.1, step.2.length + rest.2)

/-- Total number of consumer callback invocations caused by a reading
sequence. -/
def jsRunEmissions (env : JsEnv) (c : Option JsClosure) (rs : List ℚ) : Nat :=
  (jsRunAux env c rs).2

/-- Module-level state shared by all `vizObserver` instances: the
`activeObservers` set of refresh handlers (as ids), and whether the global
resize handling (`controlGlobalResize`) is enabled. -/
structure JsGlobal where
  activeObservers : List Nat
  globalResizeEnabled : Bool
  deriving DecidableEq, Repr

/-- Per-instance state of one `vizObserver` call: the released flag, the
abort-signal listener, the element's ResizeObserver registration, and the
currently live IntersectionObserver closure. -/
structure JsInstance where
  id : Nat
  released : Bool
  signalAttached : Bool
  roLive : Bool
  closure : Option JsClosure
  deriving DecidableEq, Repr

/-- A size-change notification for the element: while the ResizeObserver
registration is live it forces `refresh()` at the default threshold. -/
def jsSizeChange (env : JsEnv) (inst : JsInstance) : JsInstance × List JsRect :=
  if inst.roLive then
    let r := jsRefresh env 1
    ({ inst with closure := r.1 }, r.2)
  else (inst, [])

/-- The cleanup function returned by `vizObserver` (also invoked by the
AbortSignal listener): a released instance returns immediately; otherwise
mark released, remove the signal listener, disconnect the ResizeObserver
registration and the IntersectionObserver, delete the refresh handler from
`activeObservers`, and when that set became empty disable the global
resize handling. -/
def jsAbort (g : JsGlobal) (s : JsInstance) : JsGlobal × JsInstance :=
  if s.released then (g, s)
  else
    let s1 : JsInstance :=
      { s with released := true, signalAttached := false,
               roLive := false, closure := none }
    let active := g.activeObservers.erase s.id
    let g1 : JsGlobal :=
      { activeObservers := active,
        globalResizeEnabled := if active.length = 0 then false else g.globalResizeEnabled }
    (g1, s1)

/-! ### Association-list lemmas -/

theorem lookupEl_mem {t : Nat} {el : VOElement} :
    ∀ {l : List (Nat × VOElement)}, lookupEl l t = some el → (t, el) ∈ l := by
  intro l
  induction l with
  | nil => intro h; simp [lookupEl] at h
  | cons p ps ih =>
    intro h
    rw [lookupEl] at h
    split_ifs at h with hp
    · obtain rfl : p.2 = el := Option.some.inj h
      subst hp
      exact List.mem_cons_self _ _
    · exact List.mem_cons_of_mem _ (ih h)

theorem lookupEl_isSome_iff {t : Nat} :
    ∀ {l : List (Nat × VOElement)},
      (lookupEl l t).isSome ↔ t ∈ l.map Prod.fst := by
  intro l
  induction l with
  | nil => simp [lookupEl]
  | cons p ps ih =>
    rw [lookupEl]
    by_cases hp : p.1 = t
    · simp [hp]
    · simp [hp, ih, Ne.symm hp]

theorem lookupEl_mapAt {t : Nat} {f : VOElement → VOElement} :
    ∀ {l : List (Nat × VOElement)},
      lookupEl (mapAt l t f) t = (lookupEl l t).map f := by
  intro l
  induction l with
  | nil => simp [lookupEl, mapAt]
  | cons p ps ih =>
    by_cases hp : p.1 = t
    · simp [mapAt, lookupEl, hp]
    · simpa [mapAt, lookupEl, hp] using ih

theorem mapAt_keys {t : Nat} {f : VOElement → VOElement}
    {l : List (Nat × VOElement)} :
    (mapAt l t f).map Prod.fst = l.map Prod.fst := by
  unfold mapAt
  rw [List.map_map]
  apply List.map_congr_left
  intro p _
  by_cases hp : p.1 = t <;> simp [hp]

theorem mem_mapAt {t : Nat} {f : VOElement → VOElement}
    {l : List (Nat × VOElement)} {p : Nat × VOElement}
    (hp : p ∈ mapAt l t f) : p ∈ l ∨ ∃ q ∈ l, p = (q.1, f q.2) := by
  simp only [mapAt, List.mem_map] at hp
  obtain ⟨q, hq, hqe⟩ := hp
  by_cases h : q.1 = t
  · right
    refine ⟨q, hq, ?_⟩
    rw [if_pos h] at hqe
    exact hqe.symm
  · left
    rw [if_neg h] at hqe
    exact hqe ▸ hq

theorem lookupEl_append_none {t : Nat} {l2 : List (Nat × VOElement)} :
    ∀ {l : List (Nat × VOElement)}, lookupEl l t = none →
      lookupEl (l ++ l2) t = lookupEl l2 t := by
  intro l
  induction l with
  | nil => intro _; rfl
  | cons p ps ih =>
    intro h
    rw [lookupEl] at h
    rw [List.cons_append, lookupEl]
    by_cases hp : p.1 = t
    · rw [if_pos hp] at h
      exact absurd h (by simp)
    · rw [if_neg hp] at h
      rw [if_neg hp]
      exact ih h

theorem lookupEl_none_iff {t : Nat} :
    ∀ {l : List (Nat × VOElement)},
      lookupEl l t = none ↔ t ∉ l.map Prod.fst := by
  intro l
  rw [← Option.not_isSome_iff_eq_none, lookupEl_isSome_iff]

/-! ### Characterizations of refreshElement -/

/-- The record installed by the non-degenerate branch of
`refreshElement`. -/
def refreshedEl (env : VOEnv) (st : VOState) (r : Rect) (thr : ℚ) : VOElement :=
  { io := some (st.nextId,
      { insets := computeInsets st.rootRect.width st.rootRect.height
          (r.left + env.scrollLeft) (r.top + env.scrollTop) r.width r.height,
        threshold := thr }),
    threshold := 1, isFirstUpdate := true }

theorem refreshElement_zero {env : VOEnv} {st : VOState} {t : Nat} {r : Rect}
    {el : VOElement} (hel : lookupEl st.elements t = some el)
    (hz : r.width = 0 ∧ r.height = 0) :
    refreshElement env st t r =
      some ({ st with elements := updateEl st.elements t { el with io := none },
                      live := dropIo st.live el.io },
            { target := t, contentRect := r, isAppearing := false }) := by
  simp only [refreshElement, hel, if_pos hz]

theorem refreshElement_nonzero {env : VOEnv} {st : VOState} {t : Nat} {r : Rect}
    {el : VOElement} (hel : lookupEl st.elements t = some el)
    (hnz : ¬ (r.width = 0 ∧ r.height = 0)) :
    refreshElement env st t r =
      some ({ st with
                elements := updateEl st.elements t (refreshedEl env st r el.threshold),
                live := dropIo st.live el.io ++ [st.nextId],
                nextId := st.nextId + 1 },
            { target := t,
              contentRect := translateRect env.scrollLeft env.scrollTop r,
              isAppearing := true }) := by
  simp only [refreshElement, hel, if_neg hnz, refreshedEl, translateRect]

theorem refreshElement_total {env : VOEnv} {st : VOState} {t : Nat} {r : Rect}
    (h : (lookupEl st.elements t).isSome) :
    ∃ out, refreshElement env st t r = some out := by
  obtain ⟨el, hel⟩ := Option.isSome_iff_exists.mp h
  by_cases hz : r.width = 0 ∧ r.height = 0
  · exact ⟨_, refreshElement_zero hel hz⟩
  · exact ⟨_, refreshElement_nonzero hel hz⟩

theorem refreshElement_keys {env : VOEnv} {st : VOState} {t : Nat} {r : Rect}
    {out : VOState × VOEntry} (h : refreshElement env st t r = some out) :
    out.1.elements.map Prod.fst = st.elements.map Prod.fst ∧ out.2.target = t := by
  cases hel : lookupEl st.elements t with
  | none => simp [refreshElement, hel] at h
  | some el =>
    by_cases hz : r.width = 0 ∧ r.height = 0
    · rw [refreshElement_zero hel hz] at h
      cases h
      exact ⟨by simp [updateEl, mapAt_keys], rfl⟩
    · rw [refreshElement_nonzero hel hz] at h
      cases h
      exact ⟨by simp [updateEl, mapAt_keys], rfl⟩

theorem refreshMany_total {env : VOEnv} :
    ∀ {ts : List Nat} {st : VOState},
      (∀ t ∈ ts, t ∈ st.elements.map Prod.fst) →
      ∃ st2 es, refreshMany env st ts = some (st2, es) ∧
        es.map (fun e => e.target) = ts ∧
        st2.elements.map Prod.fst = st.elements.map Prod.fst := by
  intro ts
  induction ts with
  | nil => intro st _; exact ⟨st, [], rfl, rfl, rfl⟩
  | cons t ts ih =>
    intro st hmem
    have ht : (lookupEl st.elements t).isSome :=
      lookupEl_isSome_iff.mpr (hmem t (List.mem_cons_self _ _))
    obtain ⟨⟨st1, e⟩, h1⟩ := @refreshElement_total env st t (env.measure t) ht
    have hk := refreshElement_keys h1
    obtain ⟨st2, es, h2, hmap, hk2⟩ :=
      @ih st1 (fun u hu => hk.1 ▸ hmem u (List.mem_cons_of_mem _ hu))
    refine ⟨st2, e :: es, ?_, ?_, ?_⟩
    · simp only [refreshMany, h1, h2]
    · rw [List.map_cons, hmap, hk.2]
    · rw [hk2, hk.1]

/-! ### Preservation of the threshold invariant -/

theorem thInvL_mapAt {l : List (Nat × VOElement)} {t : Nat}
    {f : VOElement → VOElement} (h : ThInvL l)
    (hf : ∀ el : VOElement, (0 < el.threshold ∧ el.threshold ≤ 1) →
      0 < (f el).threshold ∧ (f el).threshold ≤ 1) :
    ThInvL (mapAt l t f) := by
  intro p hp
  rcases mem_mapAt hp with h1 | ⟨q, hq, rfl⟩
  · exact h p h1
  · exact hf q.2 (h q hq)

theorem thInvL_updateEl {l : List (Nat × VOElement)} {t : Nat} {el : VOElement}
    (h : ThInvL l) (hb : 0 < el.threshold ∧ el.threshold ≤ 1) :
    ThInvL (updateEl l t el) :=
  thInvL_mapAt h (fun _ _ => hb)

theorem setFirstUpdate_inv {st : VOState} {t : Nat} {b : Bool}
    (h : ThresholdInv st) : ThresholdInv (setFirstUpdate st t b) := by
  have hm : ThInvL (mapAt st.elements t fun el => { el with isFirstUpdate := b }) :=
    thInvL_mapAt h (fun _ hb => hb)
  exact hm

theorem calEps_bounds : 0 < calEps ∧ calEps ≤ 1 := by
  constructor <;> norm_num [calEps]

theorem refreshElement_inv {env : VOEnv} {st : VOState} {t : Nat} {r : Rect}
    {out : VOState × VOEntry} (hinv : ThresholdInv st)
    (h : refreshElement env st t r = some out) : ThresholdInv out.1 := by
  cases hel : lookupEl st.elements t with
  | none => simp [refreshElement, hel] at h
  | some el =>
    have helm := hinv _ (lookupEl_mem hel)
    by_cases hz : r.width = 0 ∧ r.height = 0
    · rw [refreshElement_zero hel hz] at h
      cases h
      exact thInvL_updateEl hinv helm
    · rw [refreshElement_nonzero hel hz] at h
      cases h
      exact thInvL_updateEl hinv (by norm_num [refreshedEl])

theorem refreshMany_inv {env : VOEnv} :
    ∀ {ts : List Nat} {st : VOState} {out},
      ThresholdInv st → refreshMany env st ts = some out →
      ThresholdInv out.1 := by
  intro ts
  induction ts with
  | nil =>
    intro st out h hr
    simp only [refreshMany] at hr
    cases hr
    exact h
  | cons t ts ih =>
    intro st out h hr
    simp only [refreshMany] at hr
    split at hr
    · cases hr
    · rename_i st1 e h1
      split at hr
      · cases hr
      · rename_i st2 es h2
        cases hr
        have hres := ih (refreshElement_inv h h1) h2
        exact hres

theorem onResize_inv {env : VOEnv} {st : VOState} {entries : List (Nat × Rect)}
    {out} (h : ThresholdInv st) (hr : onResize env st entries = some out) :
    ThresholdInv out.1 := by
  simp only [onResize] at hr
  split at hr
  · rename_i rootEntry hf
    split at hr
    · cases hr
    · rename_i st2 es h2
      cases hr
      have hinv2 : ThresholdInv { st with rootRect := rootEntry.2 } := h
      have hres := refreshMany_inv hinv2 h2
      exact hres
  · rename_i hf
    split at hr
    · cases hr
    · rename_i st2 es h2
      cases hr
      have hres := refreshMany_inv h h2
      exact hres

theorem deliverRefresh_inv {env : VOEnv} {st1 : VOState} {t : Nat} {bcr : Rect}
    (h : ThresholdInv st1) : ThresholdInv (deliverRefresh env st1 t bcr).1 := by
  unfold deliverRefresh
  split
  · exact h
  · rename_i st2 entry heq
    exact setFirstUpdate_inv (refreshElement_inv h heq)

theorem onIntersection_inv {env : VOEnv} {st : VOState} {t : Nat} {ratio : ℚ}
    {bcr : Rect} (hinv : ThresholdInv st) (h0 : 0 ≤ ratio) (h1 : ratio ≤ 1) :
    ThresholdInv (onIntersection env st t ratio bcr).1 := by
  cases hel : lookupEl st.elements t with
  | none => simpa [onIntersection, hel] using hinv
  | some el =>
    simp only [onIntersection, hel]
    split
    · apply deliverRefresh_inv
      split_ifs with hfu hr0
      · exact thInvL_updateEl hinv calEps_bounds
      · exact thInvL_updateEl hinv ⟨lt_of_le_of_ne h0 (Ne.symm hr0), h1⟩
      · exact hinv
    · exact setFirstUpdate_inv hinv

theorem observe_inv {st : VOState} {t : Nat} (h : ThresholdInv st) :
    ThresholdInv (observe st t) := by
  unfold observe
  split_ifs with h1 h2
  · exact h
  · intro p hp
    rcases List.mem_append.mp hp with hp1 | hp2
    · exact h p hp1
    · simp at hp2
      subst hp2
      norm_num
  · intro p hp
    rcases List.mem_append.mp hp with hp1 | hp2
    · exact h p hp1
    · simp at hp2
      subst hp2
      norm_num

theorem unobserve_inv {st : VOState} {t : Nat} (h : ThresholdInv st) :
    ThresholdInv (unobserve st t) := by
  have hfil : ThInvL (st.elements.filter fun p => p.1 != t) :=
    fun p hp => h p (List.mem_of_mem_filter hp)
  simp only [unobserve]
  split
  · exact h
  · split
    · exact hfil
    · exact hfil

theorem disconnect_inv {st : VOState} : ThresholdInv (disconnect st) := by
  intro p hp
  simp [disconnect] at hp

theorem stepEvent_inv {st st' : VOState} {ev : VOEvent} (h : ThresholdInv st)
    (hv : validEvent ev) (hs : stepEvent st ev = some st') :
    ThresholdInv st' := by
  cases ev with
  | observeEv t => cases hs; exact observe_inv h
  | unobserveEv t => cases hs; exact unobserve_inv h
  | disconnectEv => cases hs; exact disconnect_inv
  | resizeEv env entries =>
    simp only [stepEvent] at hs
    cases ho : onResize env st entries with
    | none => rw [ho] at hs; cases hs
    | some out =>
      rw [ho] at hs
      cases hs
      exact onResize_inv h ho
  | intersectEv env t ratio bcr =>
    cases hs
    exact onIntersection_inv h hv.1 hv.2

theorem lookupEl_updateEl {l : List (Nat × VOElement)} {t : Nat}
    {el : VOElement} (h : (lookupEl l t).isSome) :
    lookupEl (updateEl l t el) t = some el := by
  unfold updateEl
  rw [lookupEl_mapAt]
  obtain ⟨v, hv⟩ := Option.isSome_iff_exists.mp h
  rw [hv]
  rfl

theorem runEvents_inv :
    ∀ {evs : List VOEvent} {st st' : VOState}, ThresholdInv st →
      (∀ ev ∈ evs, validEvent ev) → runEvents st evs = some st' →
      ThresholdInv st' := by
  intro evs
  induction evs with
  | nil =>
    intro st st' h _ hr
    simp only [runEvents] at hr
    cases hr
    exact h
  | cons ev evs ih =>
    intro st st' h hv hr
    simp only [runEvents] at hr
    cases hs : stepEvent st ev with
    | none => rw [hs] at hr; cases hr
    | some st1 =>
      rw [hs] at hr
      exact ih (stepEvent_inv h (hv ev (List.mem_cons_self _ _)) hs)
        (fun e he => hv e (List.mem_cons_of_mem _ he)) hr

/-! ### Claim theorems -/

theorem observe_elements {st : VOState} {t : Nat}
    (h : lookupEl st.elements t = none) :
    (observe st t).elements =
      st.elements ++ [(t, { io := none, threshold := 1, isFirstUpdate := true })] := by
  simp only [observe, h, Option.isSome_none, Bool.false_eq_true, if_false]
  split_ifs <;> rfl

/-- Claim C9: calling `observe` twice on the same target without an
intervening `unobserve` has no additional effect: the second call is the
identity, at most one record exists for the target in the `#elements`
map, and the ResizeObserver registrations (the notification stream) are
those of a single `observe` call. -/
theorem observe_idempotent (st : VOState) (t : Nat)
    (hc : ((st.elements.map Prod.fst).count t) ≤ 1) :
    observe (observe st t) t = observe st t ∧
    (((observe st t).elements.map Prod.fst).count t) ≤ 1 ∧
    (observe (observe st t) t).roTargets = (observe st t).roTargets := by
  by_cases h : (lookupEl st.elements t).isSome
  · have e1 : observe st t = st := by simp [observe, h]
    refine ⟨by rw [e1, e1], by rw [e1]; exact hc, by rw [e1, e1]⟩
  · have hnone : lookupEl st.elements t = none :=
      Option.not_isSome_iff_eq_none.mp h
    have e2 : lookupEl (observe st t).elements t =
        some { io := none, threshold := 1, isFirstUpdate := true } := by
      rw [observe_elements hnone, lookupEl_append_none hnone, lookupEl]
      simp
    have e3 : observe (observe st t) t = observe st t := by
      rw [observe]
      rw [if_pos (by rw [e2]; rfl)]
    have e4 : (((observe st t).elements.map Prod.fst).count t) ≤ 1 := by
      rw [observe_elements hnone]
      have h0 : (st.elements.map Prod.fst).count t = 0 :=
        List.count_eq_zero.mpr (lookupEl_none_iff.mp hnone)
      simp [List.count_append, h0]
    exact ⟨e3, e4, by rw [e3]⟩

/-- Witness for C9 at a concrete state. -/
theorem observe_idempotent_witness :
    observe (observe (initState { left := 0, top := 0, width := 100, height := 100 }) 1) 1 =
      observe (initState { left := 0, top := 0, width := 100, height := 100 }) 1 ∧
    (((observe (initState { left := 0, top := 0, width := 100, height := 100 }) 1).elements.map
        Prod.fst).count 1) ≤ 1 ∧
    (observe (observe (initState { left := 0, top := 0, width := 100, height := 100 }) 1) 1).roTargets =
      (observe (initState { left := 0, top := 0, width := 100, height := 100 }) 1).roTargets :=
  observe_idempotent (initState { left := 0, top := 0, width := 100, height := 100 }) 1
    (by decide)

/-- Claim C3: for a tracked element whose measured box has non-zero size,
`#refreshElement` returns an appearing entry whose `(x, y)` is the
viewport-relative top-left plus the root's scroll offsets, and installs a
fresh visibility subscription (a new live IntersectionObserver id stored
on the element's record). -/
theorem refresh_nonzero_size_appearing (env : VOEnv) (st : VOState) (t : Nat)
    (rect : Rect) (el : VOElement)
    (hel : lookupEl st.elements t = some el)
    (hnz : ¬ (rect.width = 0 ∧ rect.height = 0)) :
    ∃ st' e, refreshElement env st t rect = some (st', e) ∧
      e.isAppearing = true ∧
      e.contentRect.left = rect.left + env.scrollLeft ∧
      e.contentRect.top = rect.top + env.scrollTop ∧
      e.contentRect.width = rect.width ∧
      e.contentRect.height = rect.height ∧
      e.target = t ∧
      ∃ el', lookupEl st'.elements t = some el' ∧
        (∃ cfg, el'.io = some (st.nextId, cfg)) ∧
        st.nextId ∈ st'.live := by
  refine ⟨_, _, refreshElement_nonzero hel hnz, rfl, rfl, rfl, rfl, rfl, rfl,
    refreshedEl env st rect el.threshold, ?_, ⟨_, rfl⟩, ?_⟩
  · exact lookupEl_updateEl (by simp [hel])
  · simp

/-- Witness for C3 at a concrete tracked element. -/
theorem refresh_nonzero_size_appearing_witness :
    ∃ st' e,
      refreshElement
        { rootId := 0, scrollLeft := 5, scrollTop := 7,
          measure := fun _ => { left := 0, top := 0, width := 0, height := 0 } }
        { elements := [(1, { io := none, threshold := 1, isFirstUpdate := true })],
          rootRect := { left := 0, top := 0, width := 800, height := 600 },
          roTargets := [1], rootObserved := true, nextId := 0, live := [] }
        1 { left := 10, top := 20, width := 30, height := 40 } = some (st', e) ∧
      e.isAppearing = true ∧
      e.contentRect.left = (10 : ℚ) + 5 ∧
      e.contentRect.top = (20 : ℚ) + 7 ∧
      e.contentRect.width = (30 : ℚ) ∧
      e.contentRect.height = (40 : ℚ) ∧
      e.target = 1 ∧
      ∃ el', lookupEl st'.elements 1 = some el' ∧
        (∃ cfg, el'.io = some (0, cfg)) ∧
        (0 : Nat) ∈ st'.live :=
  refresh_nonzero_size_appearing
    { rootId := 0, scrollLeft := 5, scrollTop := 7,
      measure := fun _ => { left := 0, top := 0, width := 0, height := 0 } }
    { elements := [(1, { io := none, threshold := 1, isFirstUpdate := true })],
      rootRect := { left := 0, top := 0, width := 800, height := 600 },
      roTargets := [1], rootObserved := true, nextId := 0, live := [] }
    1 { left := 10, top := 20, width := 30, height := 40 }
    { io := none, threshold := 1, isFirstUpdate := true }
    rfl (by norm_num)

/-- Claim C5: when a size-change batch contains a notification targeting
the root, the per-element batch-building path is suppressed (the result
coincides with processing the root entry alone) and every tracked element
is refreshed, all resulting entries being delivered in one callback
invocation in map-iteration order. -/
theorem root_resize_batch_refreshes_all (env : VOEnv) (st : VOState)
    (entries : List (Nat × Rect)) (rootEntry : Nat × Rect)
    (hfind : entries.find? (fun e => e.1 == env.rootId) = some rootEntry) :
    onResize env st entries = onResize env st [rootEntry] ∧
    ∃ st2 es, onResize env st entries = some (st2, [es]) ∧
      es.map (fun e => e.target) = st.elements.map Prod.fst := by
  have hpred : (rootEntry.1 == env.rootId) = true := by
    have hp := List.find?_some hfind
    exact hp
  have hfind2 : [rootEntry].find? (fun e => e.1 == env.rootId) = some rootEntry := by
    simp [List.find?, hpred]
  constructor
  · simp only [onResize, hfind, hfind2]
  · obtain ⟨st2, es, h2, hmap, _⟩ :=
      @refreshMany_total env (st.elements.map Prod.fst)
        { st with rootRect := rootEntry.2 } (fun u hu => hu)
    exact ⟨st2, es, by simp only [onResize, hfind]; rw [h2], hmap⟩

/-- Witness for C5: a two-element map and a batch containing the root. -/
theorem root_resize_batch_refreshes_all_witness :
    onResize
      { rootId := 0, scrollLeft := 0, scrollTop := 0,
        measure := fun _ => { left := 1, top := 2, width := 3, height := 4 } }
      { elements := [(1, { io := none, threshold := 1, isFirstUpdate := true }),
                     (2, { io := none, threshold := 1, isFirstUpdate := true })],
        rootRect := { left := 0, top := 0, width := 800, height := 600 },
        roTargets := [1, 2], rootObserved := true, nextId := 0, live := [] }
      [(5, { left := 0, top := 0, width := 9, height := 9 }),
       (0, { left := 0, top := 0, width := 640, height := 480 })] =
    onResize
      { rootId := 0, scrollLeft := 0, scrollTop := 0,
        measure := fun _ => { left := 1, top := 2, width := 3, height := 4 } }
      { elements := [(1, { io := none, threshold := 1, isFirstUpdate := true }),
                     (2, { io := none, threshold := 1, isFirstUpdate := true })],
        rootRect := { left := 0, top := 0, width := 800, height := 600 },
        roTargets := [1, 2], rootObserved := true, nextId := 0, live := [] }
      [(0, { left := 0, top := 0, width := 640, height := 480 })] ∧
    ∃ st2 es,
      onResize
        { rootId := 0, scrollLeft := 0, scrollTop := 0,
          measure := fun _ => { left := 1, top := 2, width := 3, height := 4 } }
        { elements := [(1, { io := none, threshold := 1, isFirstUpdate := true }),
                       (2, { io := none, threshold := 1, isFirstUpdate := true })],
          rootRect := { left := 0, top := 0, width := 800, height := 600 },
          roTargets := [1, 2], rootObserved := true, nextId := 0, live := [] }
        [(5, { left := 0, top := 0, width := 9, height := 9 }),
         (0, { left := 0, top := 0, width := 640, height := 480 })] = some (st2, [es]) ∧
      es.map (fun e => e.target) = [1, 2] :=
  root_resize_batch_refreshes_all _ _ _
    (0, { left := 0, top := 0, width := 640, height := 480 }) rfl

/-- Shared characterization: a deviating reading on a record whose
`isFirstUpdate` flag is cleared triggers an uncalibrated refresh with the
notification's bounding rect and one consumer callback. -/
theorem onIntersection_notFirst_deviates {env : VOEnv} {st : VOState}
    {t : Nat} {ratio : ℚ} {bcr : Rect} {el : VOElement}
    (hel : lookupEl st.elements t = some el)
    (hfirst : el.isFirstUpdate = false)
    (hdev : ratio ≠ el.threshold)
    (hsize : ¬ (bcr.width = 0 ∧ bcr.height = 0)) :
    onIntersection env st t ratio bcr =
      (setFirstUpdate
        { st with elements := updateEl st.elements t (refreshedEl env st bcr el.threshold),
                  live := dropIo st.live el.io ++ [st.nextId],
                  nextId := st.nextId + 1 } t false,
       [[{ target := t,
           contentRect := translateRect env.scrollLeft env.scrollTop bcr,
           isAppearing := true }]]) := by
  simp only [onIntersection, hel, hfirst, Bool.false_eq_true, if_false]
  rw [if_pos hdev]
  simp only [deliverRefresh, refreshElement_nonzero hel hsize]

/-- Claim C2: after the baseline is established (`isFirstUpdate` false,
stored threshold 1), a deviating visibility-ratio notification performs a
full refresh rebuilding geometry from the notification's bounding rect,
reinstalls the visibility subscription at full threshold `1.0`, and
delivers the resulting entry to the consumer in one callback. -/
theorem post_baseline_deviation_full_refresh (env : VOEnv) (st : VOState)
    (t : Nat) (ratio : ℚ) (bcr : Rect) (el : VOElement)
    (hel : lookupEl st.elements t = some el)
    (hfirst : el.isFirstUpdate = false)
    (hbase : el.threshold = 1)
    (hdev : ratio ≠ 1)
    (hsize : ¬ (bcr.width = 0 ∧ bcr.height = 0)) :
    (onIntersection env st t ratio bcr).2 =
      [[{ target := t,
          contentRect := translateRect env.scrollLeft env.scrollTop bcr,
          isAppearing := true }]] ∧
    ∃ el2, lookupEl (onIntersection env st t ratio bcr).1.elements t = some el2 ∧
      el2.io = some (st.nextId,
        { insets := computeInsets st.rootRect.width st.rootRect.height
            (bcr.left + env.scrollLeft) (bcr.top + env.scrollTop) bcr.width bcr.height,
          threshold := 1 }) := by
  have hdev2 : ratio ≠ el.threshold := by rw [hbase]; exact hdev
  rw [onIntersection_notFirst_deviates hel hfirst hdev2 hsize]
  refine ⟨rfl, ?_⟩
  refine ⟨{ refreshedEl env st bcr el.threshold with isFirstUpdate := false }, ?_, ?_⟩
  · simp only [setFirstUpdate]
    rw [lookupEl_mapAt, lookupEl_updateEl (by simp [hel])]
    rfl
  · simp [refreshedEl, hbase]

/-- Witness for C2 at a concrete post-baseline state. -/
theorem post_baseline_deviation_full_refresh_witness :
    (onIntersection
        { rootId := 0, scrollLeft := 3, scrollTop := 4,
          measure := fun _ => { left := 0, top := 0, width := 0, height := 0 } }
        { elements := [(1, { io := some (0, { insets := { top := 0, right := 0, bottom := 0, left := 0 }, threshold := 1 }),
                             threshold := 1, isFirstUpdate := false })],
          rootRect := { left := 0, top := 0, width := 800, height := 600 },
          roTargets := [1], rootObserved := true, nextId := 1, live := [0] }
        1 (1/2) { left := 10, top := 20, width := 30, height := 40 }).2 =
      [[{ target := 1,
          contentRect := translateRect 3 4 { left := 10, top := 20, width := 30, height := 40 },
          isAppearing := true }]] ∧
    ∃ el2, lookupEl (onIntersection
        { rootId := 0, scrollLeft := 3, scrollTop := 4,
          measure := fun _ => { left := 0, top := 0, width := 0, height := 0 } }
        { elements := [(1, { io := some (0, { insets := { top := 0, right := 0, bottom := 0, left := 0 }, threshold := 1 }),
                             threshold := 1, isFirstUpdate := false })],
          rootRect := { left := 0, top := 0, width := 800, height := 600 },
          roTargets := [1], rootObserved := true, nextId := 1, live := [0] }
        1 (1/2) { left := 10, top := 20, width := 30, height := 40 }).1.elements 1 = some el2 ∧
      el2.io = some (1,
        { insets := computeInsets 800 600 (10 + 3) (20 + 4) 30 40,
          threshold := 1 }) :=
  post_baseline_deviation_full_refresh _ _ 1 (1/2)
    { left := 10, top := 20, width := 30, height := 40 }
    { io := some (0, { insets := { top := 0, right := 0, bottom := 0, left := 0 }, threshold := 1 }),
      threshold := 1, isFirstUpdate := false }
    rfl rfl rfl (by norm_num) (by norm_num)

/-- Claim C6: each refresh releases the existing subscription before
creating the new one, and a post-baseline deviating notification yields
exactly one consumer callback with a freshly recomputed contentRect and
leaves exactly one live subscription for the element (the old id gone,
the fresh id live exactly once). -/
theorem movement_single_callback_single_subscription (env : VOEnv)
    (st : VOState) (t : Nat) (ratio : ℚ) (bcr : Rect) (el : VOElement)
    (i : Nat) (cfg0 : IOConfig)
    (hel : lookupEl st.elements t = some el)
    (hio : el.io = some (i, cfg0))
    (hfirst : el.isFirstUpdate = false)
    (hdev : ratio ≠ el.threshold)
    (hsize : ¬ (bcr.width = 0 ∧ bcr.height = 0))
    (hlive : i ∈ st.live)
    (hnd : st.live.Nodup)
    (hfresh : ∀ j ∈ st.live, j < st.nextId) :
    ∃ entry el2,
      (onIntersection env st t ratio bcr).2 = [[entry]] ∧
      entry.contentRect = translateRect env.scrollLeft env.scrollTop bcr ∧
      lookupEl (onIntersection env st t ratio bcr).1.elements t = some el2 ∧
      (∃ cfg, el2.io = some (st.nextId, cfg)) ∧
      i ∉ (onIntersection env st t ratio bcr).1.live ∧
      (onIntersection env st t ratio bcr).1.live.count st.nextId = 1 := by
  have hnotmem : st.nextId ∉ st.live := fun hmem => lt_irrefl _ (hfresh _ hmem)
  rw [onIntersection_notFirst_deviates hel hfirst hdev hsize]
  refine ⟨{ target := t, contentRect := translateRect env.scrollLeft env.scrollTop bcr,
            isAppearing := true },
          { refreshedEl env st bcr el.threshold with isFirstUpdate := false },
          rfl, rfl, ?_, ?_, ?_, ?_⟩
  · simp only [setFirstUpdate]
    rw [lookupEl_mapAt, lookupEl_updateEl (by simp [hel])]
    rfl
  · exact ⟨_, rfl⟩
  · simp only [setFirstUpdate]
    rw [hio]
    simp only [dropIo, List.mem_append, List.mem_singleton]
    rintro (hmem | rfl)
    · exact hnd.not_mem_erase hmem
    · exact absurd hlive hnotmem
  · simp only [setFirstUpdate]
    rw [hio]
    simp only [dropIo, List.count_append]
    have h0 : (st.live.erase i).count st.nextId = 0 :=
      List.count_eq_zero.mpr (fun hmem => hnotmem (List.mem_of_mem_erase hmem))
    rw [h0]
    simp

/-- Witness for C6 at a concrete state with one live subscription. -/
theorem movement_single_callback_single_subscription_witness :
    ∃ entry el2,
      (onIntersection
          { rootId := 0, scrollLeft := 0, scrollTop := 0,
            measure := fun _ => { left := 0, top := 0, width := 0, height := 0 } }
          { elements := [(7, { io := some (2, { insets := { top := 1, right := 1, bottom := 1, left := 1 }, threshold := 1 }),
                               threshold := 1, isFirstUpdate := false })],
            rootRect := { left := 0, top := 0, width := 800, height := 600 },
            roTargets := [7], rootObserved := true, nextId := 3, live := [2] }
          7 (3/4) { left := 1, top := 2, width := 3, height := 4 }).2 = [[entry]] ∧
      entry.contentRect = translateRect 0 0 { left := 1, top := 2, width := 3, height := 4 } ∧
      lookupEl (onIntersection
          { rootId := 0, scrollLeft := 0, scrollTop := 0,
            measure := fun _ => { left := 0, top := 0, width := 0, height := 0 } }
          { elements := [(7, { io := some (2, { insets := { top := 1, right := 1, bottom := 1, left := 1 }, threshold := 1 }),
                               threshold := 1, isFirstUpdate := false })],
            rootRect := { left := 0, top := 0, width := 800, height := 600 },
            roTargets := [7], rootObserved := true, nextId := 3, live := [2] }
          7 (3/4) { left := 1, top := 2, width := 3, height := 4 }).1.elements 7 = some el2 ∧
      (∃ cfg, el2.io = some (3, cfg)) ∧
      (2 : Nat) ∉ (onIntersection
          { rootId := 0, scrollLeft := 0, scrollTop := 0,
            measure := fun _ => { left := 0, top := 0, width := 0, height := 0 } }
          { elements := [(7, { io := some (2, { insets := { top := 1, right := 1, bottom := 1, left := 1 }, threshold := 1 }),
                               threshold := 1, isFirstUpdate := false })],
            rootRect := { left := 0, top := 0, width := 800, height := 600 },
            roTargets := [7], rootObserved := true, nextId := 3, live := [2] }
          7 (3/4) { left := 1, top := 2, width := 3, height := 4 }).1.live ∧
      (onIntersection
          { rootId := 0, scrollLeft := 0, scrollTop := 0,
            measure := fun _ => { left := 0, top := 0, width := 0, height := 0 } }
          { elements := [(7, { io := some (2, { insets := { top := 1, right := 1, bottom := 1, left := 1 }, threshold := 1 }),
                               threshold := 1, isFirstUpdate := false })],
            rootRect := { left := 0, top := 0, width := 800, height := 600 },
            roTargets := [7], rootObserved := true, nextId := 3, live := [2] }
          7 (3/4) { left := 1, top := 2, width := 3, height := 4 }).1.live.count 3 = 1 :=
  movement_single_callback_single_subscription _ _ 7 (3/4)
    { left := 1, top := 2, width := 3, height := 4 }
    { io := some (2, { insets := { top := 1, right := 1, bottom := 1, left := 1 }, threshold := 1 }),
      threshold := 1, isFirstUpdate := false }
    2 { insets := { top := 1, right := 1, bottom := 1, left := 1 }, threshold := 1 }
    rfl rfl rfl (by norm_num) (by norm_num) (by simp) (by simp) (by simp)

/-! ### Lemmas about the legacy closure engine -/

theorem jsRefresh_zero {jenv : JsEnv} {thr : ℚ}
    (hz : jenv.rect.width = 0 ∨ jenv.rect.height = 0) :
    jsRefresh jenv thr =
      (none, [{ appear := false, x := 0, y := 0, width := 0, height := 0 }]) := by
  simp only [jsRefresh]
  rw [if_pos hz]

theorem jsRefresh_nonzero {jenv : JsEnv} {thr : ℚ}
    (hw : ¬ jenv.rect.width = 0) (hh : ¬ jenv.rect.height = 0) :
    jsRefresh jenv thr =
      (some { threshold := thr, isFirstUpdate := true,
              io := { insetTop := ⌊jenv.rect.top + jenv.scrollTop⌋,
                      insetRight := ⌊jenv.rootW - (jenv.rect.left + jenv.scrollLeft + jenv.rect.width)⌋,
                      insetBottom := ⌊jenv.rootH - (jenv.rect.top + jenv.scrollTop + jenv.rect.height)⌋,
                      insetLeft := ⌊jenv.rect.left + jenv.scrollLeft⌋,
                      threshold := thr } },
       [{ appear := true, x := jenv.rect.left + jenv.scrollLeft,
          y := jenv.rect.top + jenv.scrollTop,
          width := jenv.rect.width, height := jenv.rect.height }]) := by
  simp only [jsRefresh]
  rw [if_neg (by simp [hw, hh])]

theorem jsOnIntersection_steady {jenv : JsEnv} {c : JsClosure} {r : ℚ}
    (h : r = c.threshold) :
    jsOnIntersection jenv c r = (some { c with isFirstUpdate := false }, []) := by
  rw [jsOnIntersection, if_neg (by simp [h])]

theorem jsOnIntersection_first {jenv : JsEnv} {c : JsClosure} {r : ℚ}
    (hcf : c.isFirstUpdate = true) (hdev : r ≠ c.threshold) (hr0 : r ≠ 0) :
    jsOnIntersection jenv c r = jsRefresh jenv r := by
  simp only [jsOnIntersection]
  rw [if_pos hdev, if_neg (by simp [hcf]), if_neg hr0]

theorem jsOnIntersection_notFirst {jenv : JsEnv} {c : JsClosure} {r : ℚ}
    (hcf : c.isFirstUpdate = false) (hdev : r ≠ c.threshold) :
    jsOnIntersection jenv c r = jsRefresh jenv 1 := by
  simp only [jsOnIntersection]
  rw [if_pos hdev, if_pos (by simp [hcf])]

theorem jsRun_steady (jenv : JsEnv) (r : ℚ) :
    ∀ (n : Nat) (c : JsClosure), c.threshold = r →
      (jsRunAux jenv (some c) (List.replicate n r)).2 = 0 := by
  intro n
  induction n with
  | zero => intro c _; rfl
  | succ n ih =>
    intro c h
    rw [List.replicate_succ]
    simp only [jsRunAux]
    rw [jsOnIntersection_steady h.symm]
    simp only [List.length_nil]
    have h2 := ih { c with isFirstUpdate := false } h
    simpa using h2

/-- On the first reading deviating from a baseline of `1`, index.js
refreshes at the calibrated (nonzero) ratio, emitting one rect; all later
readings equal to that ratio emit nothing: exactly one extra callback. -/
theorem jsRun_one_extra (jenv : JsEnv) (r : ℚ) (n : Nat) (c : JsClosure)
    (hcth : c.threshold = 1) (hcf : c.isFirstUpdate = true)
    (hw : ¬ jenv.rect.width = 0) (hh : ¬ jenv.rect.height = 0)
    (hr1 : r ≠ 1) (hr0 : r ≠ 0) :
    jsRunEmissions jenv (some c) (r :: List.replicate n r) = 1 := by
  have hdev : r ≠ c.threshold := by rw [hcth]; exact hr1
  have h1 : jsOnIntersection jenv c r = jsRefresh jenv r :=
    jsOnIntersection_first hcf hdev hr0
  have h2 := @jsRefresh_nonzero jenv r hw hh
  have hc1a : (jsRefresh jenv r).1 =
      some { threshold := r, isFirstUpdate := true,
             io := { insetTop := ⌊jenv.rect.top + jenv.scrollTop⌋,
                     insetRight := ⌊jenv.rootW - (jenv.rect.left + jenv.scrollLeft + jenv.rect.width)⌋,
                     insetBottom := ⌊jenv.rootH - (jenv.rect.top + jenv.scrollTop + jenv.rect.height)⌋,
                     insetLeft := ⌊jenv.rect.left + jenv.scrollLeft⌋,
                     threshold := r } } := by rw [h2]
  have hc1c : (jsRefresh jenv r).2.length = 1 := by rw [h2]; rfl
  simp only [jsRunEmissions, jsRunAux, h1]
  rw [hc1a, jsRun_steady jenv r n _ rfl, hc1c]

/-- Counterexample to C1 as stated: in the calibration-convergence
scenario (first ratio `99/100` deviating from the baseline `1`, all
subsequent ratios equal to it) the consumer receives one additional
callback invocation, not zero, because the first-reading branch performs a
refresh, which re-measures geometry and emits the rect to the consumer. -/
theorem calibration_first_reading_counterexample :
    jsRunEmissions
      { rect := { left := 10, top := 20, width := 30, height := 40 },
        scrollTop := 0, scrollLeft := 0, rootW := 800, rootH := 600 }
      (some { threshold := 1, isFirstUpdate := true,
              io := { insetTop := 20, insetRight := 760, insetBottom := 540,
                      insetLeft := 10, threshold := 1 } })
      [99/100, 99/100, 99/100] = 1 :=
  jsRun_one_extra
    { rect := { left := 10, top := 20, width := 30, height := 40 },
      scrollTop := 0, scrollLeft := 0, rootW := 800, rootH := 600 }
    (99/100) 2
    { threshold := 1, isFirstUpdate := true,
      io := { insetTop := 20, insetRight := 760, insetBottom := 540,
              insetLeft := 10, threshold := 1 } }
    rfl rfl (by norm_num) (by norm_num) (by norm_num) (by norm_num)

/-- Claim C1 (amended): on the first deviating visibility reading the
calibrator sets the baseline to the observed ratio (epsilon for an exact
`0.0`), and — contrary to the frozen claim — immediately performs a
refresh (recomputing geometry and installing the new subscription at the
calibrated threshold) and emits that one entry to the consumer; in the
calibration-convergence scenario the closure engine's consumer therefore
receives exactly one additional callback invocation, after which readings
equal to the calibrated ratio emit nothing. -/
theorem calibration_first_reading_refreshes_and_emits
    (env : VOEnv) (st : VOState) (t : Nat) (ratio : ℚ) (bcr : Rect)
    (el : VOElement) (jenv : JsEnv) (r : ℚ) (n : Nat) (c : JsClosure)
    (hel : lookupEl st.elements t = some el)
    (hfirst : el.isFirstUpdate = true)
    (hdev : ratio ≠ el.threshold)
    (hr0 : ratio ≠ 0)
    (hsize : ¬ (bcr.width = 0 ∧ bcr.height = 0))
    (hcth : c.threshold = 1) (hcf : c.isFirstUpdate = true)
    (hw : ¬ jenv.rect.width = 0) (hh : ¬ jenv.rect.height = 0)
    (hr1 : r ≠ 1) (hjr0 : r ≠ 0) :
    ((onIntersection env st t ratio bcr).2 =
       [[{ target := t,
           contentRect := translateRect env.scrollLeft env.scrollTop bcr,
           isAppearing := true }]] ∧
     ∃ el2, lookupEl (onIntersection env st t ratio bcr).1.elements t = some el2 ∧
       ∃ cfg, el2.io = some (st.nextId, cfg) ∧ cfg.threshold = ratio) ∧
    jsRunEmissions jenv (some c) (r :: List.replicate n r) = 1 := by
  refine ⟨?_, jsRun_one_extra jenv r n c hcth hcf hw hh hr1 hjr0⟩
  have hoi : onIntersection env st t ratio bcr =
      deliverRefresh env
        { st with elements := updateEl st.elements t ({ el with threshold := ratio }) }
        t bcr := by
    simp only [onIntersection, hel, hfirst, if_true, if_neg hr0]
    rw [if_pos hdev]
  have hel1 : lookupEl (updateEl st.elements t ({ el with threshold := ratio })) t =
      some ({ el with threshold := ratio }) :=
    lookupEl_updateEl (by simp [hel])
  rw [hoi]
  simp only [deliverRefresh]
  rw [@refreshElement_nonzero env
    { st with elements := updateEl st.elements t ({ el with threshold := ratio }) }
    t bcr ({ el with threshold := ratio }) hel1 hsize]
  refine ⟨rfl, ?_⟩
  refine ⟨{ refreshedEl env
      { st with elements := updateEl st.elements t ({ el with threshold := ratio }) }
      bcr ratio with isFirstUpdate := false }, ?_, ?_⟩
  · simp only [setFirstUpdate]
    rw [lookupEl_mapAt, lookupEl_updateEl (by simp [hel1])]
    rfl
  · exact ⟨_, rfl, rfl⟩

/-- Witness for C1 (amended) at concrete inputs. -/
theorem calibration_first_reading_refreshes_and_emits_witness :
    ((onIntersection
        { rootId := 0, scrollLeft := 2, scrollTop := 3,
          measure := fun _ => { left := 0, top := 0, width := 0, height := 0 } }
        { elements := [(4, { io := none, threshold := 1, isFirstUpdate := true })],
          rootRect := { left := 0, top := 0, width := 800, height := 600 },
          roTargets := [4], rootObserved := true, nextId := 0, live := [] }
        4 (1/2) { left := 5, top := 6, width := 7, height := 8 }).2 =
      [[{ target := 4,
          contentRect := translateRect 2 3 { left := 5, top := 6, width := 7, height := 8 },
          isAppearing := true }]] ∧
     ∃ el2, lookupEl (onIntersection
        { rootId := 0, scrollLeft := 2, scrollTop := 3,
          measure := fun _ => { left := 0, top := 0, width := 0, height := 0 } }
        { elements := [(4, { io := none, threshold := 1, isFirstUpdate := true })],
          rootRect := { left := 0, top := 0, width := 800, height := 600 },
          roTargets := [4], rootObserved := true, nextId := 0, live := [] }
        4 (1/2) { left := 5, top := 6, width := 7, height := 8 }).1.elements 4 = some el2 ∧
       ∃ cfg, el2.io = some (0, cfg) ∧ cfg.threshold = 1/2) ∧
    jsRunEmissions
      { rect := { left := 1, top := 2, width := 3, height := 4 },
        scrollTop := 5, scrollLeft := 6, rootW := 400, rootH := 300 }
      (some { threshold := 1, isFirstUpdate := true,
              io := { insetTop := 7, insetRight := 390, insetBottom := 290,
                      insetLeft := 7, threshold := 1 } })
      ((3/4) :: List.replicate 5 (3/4)) = 1 :=
  calibration_first_reading_refreshes_and_emits
    { rootId := 0, scrollLeft := 2, scrollTop := 3,
      measure := fun _ => { left := 0, top := 0, width := 0, height := 0 } }
    { elements := [(4, { io := none, threshold := 1, isFirstUpdate := true })],
      rootRect := { left := 0, top := 0, width := 800, height := 600 },
      roTargets := [4], rootObserved := true, nextId := 0, live := [] }
    4 (1/2) { left := 5, top := 6, width := 7, height := 8 }
    { io := none, threshold := 1, isFirstUpdate := true }
    { rect := { left := 1, top := 2, width := 3, height := 4 },
      scrollTop := 5, scrollLeft := 6, rootW := 400, rootH := 300 }
    (3/4) 5
    { threshold := 1, isFirstUpdate := true,
      io := { insetTop := 7, insetRight := 390, insetBottom := 290,
              insetLeft := 7, threshold := 1 } }
    rfl rfl (by norm_num) (by norm_num) (by norm_num)
    rfl rfl (by norm_num) (by norm_num) (by norm_num) (by norm_num)

/-- Claim C4: while tracked (ResizeObserver registration live), a
size-change against a box with `width = 0` or `height = 0` emits exactly
`{appear: false, x: 0, y: 0, width: 0, height: 0}`, installs no visibility
subscription, and leaves the tracking state untouched, so that a later
size change against a non-degenerate box re-enters refresh, emitting an
appearing rect and installing a subscription. -/
theorem refresh_zero_size_not_appearing (env env2 : JsEnv) (inst : JsInstance)
    (hz : env.rect.width = 0 ∨ env.rect.height = 0)
    (hro : inst.roLive = true)
    (h2w : ¬ env2.rect.width = 0) (h2h : ¬ env2.rect.height = 0) :
    jsSizeChange env inst =
      ({ inst with closure := none },
       [{ appear := false, x := 0, y := 0, width := 0, height := 0 }]) ∧
    (jsSizeChange env2 { inst with closure := none }).2 =
      [{ appear := true, x := env2.rect.left + env2.scrollLeft,
         y := env2.rect.top + env2.scrollTop,
         width := env2.rect.width, height := env2.rect.height }] ∧
    ∃ c, (jsSizeChange env2 { inst with closure := none }).1.closure = some c := by
  refine ⟨?_, ?_, ?_⟩
  · simp only [jsSizeChange, hro, if_true, jsRefresh_zero hz]
  · simp only [jsSizeChange, hro, if_true, jsRefresh_nonzero h2w h2h]
  · simp only [jsSizeChange, hro, if_true, jsRefresh_nonzero h2w h2h]
    exact ⟨_, rfl⟩

/-- Witness for C4 at a concrete instance: a 0×40 box, then a 30×40 box. -/
theorem refresh_zero_size_not_appearing_witness :
    jsSizeChange
      { rect := { left := 3, top := 4, width := 0, height := 40 },
        scrollTop := 0, scrollLeft := 0, rootW := 800, rootH := 600 }
      { id := 9, released := false, signalAttached := false, roLive := true,
        closure := none } =
      ({ id := 9, released := false, signalAttached := false, roLive := true,
         closure := none },
       [{ appear := false, x := 0, y := 0, width := 0, height := 0 }]) ∧
    (jsSizeChange
      { rect := { left := 3, top := 4, width := 30, height := 40 },
        scrollTop := 0, scrollLeft := 0, rootW := 800, rootH := 600 }
      { id := 9, released := false, signalAttached := false, roLive := true,
        closure := none }).2 =
      [{ appear := true, x := (3 : ℚ) + 0, y := (4 : ℚ) + 0,
         width := 30, height := 40 }] ∧
    ∃ c, (jsSizeChange
      { rect := { left := 3, top := 4, width := 30, height := 40 },
        scrollTop := 0, scrollLeft := 0, rootW := 800, rootH := 600 }
      { id := 9, released := false, signalAttached := false, roLive := true,
        closure := none }).1.closure = some c :=
  refresh_zero_size_not_appearing
    { rect := { left := 3, top := 4, width := 0, height := 40 },
      scrollTop := 0, scrollLeft := 0, rootW := 800, rootH := 600 }
    { rect := { left := 3, top := 4, width := 30, height := 40 },
      scrollTop := 0, scrollLeft := 0, rootW := 800, rootH := 600 }
    { id := 9, released := false, signalAttached := false, roLive := true,
      closure := none }
    (Or.inl rfl) rfl (by norm_num) (by norm_num)

/-- Counterexample to C7 as stated ("every refresh resets the threshold
to 1.0"): a refresh against a zero-size box leaves the stored threshold
unchanged at `1/2`. -/
theorem refresh_resets_threshold_counterexample :
    (refreshElement
        { rootId := 0, scrollLeft := 0, scrollTop := 0,
          measure := fun _ => { left := 0, top := 0, width := 0, height := 0 } }
        { elements := [(1, { io := none, threshold := 1/2, isFirstUpdate := false })],
          rootRect := { left := 0, top := 0, width := 800, height := 600 },
          roTargets := [1], rootObserved := true, nextId := 0, live := [] }
        1 { left := 3, top := 4, width := 0, height := 0 }).map
      (fun out => (lookupEl out.1.elements 1).map (fun e => e.threshold)) =
    some (some (1/2)) := rfl

/-- Claim C7 (amended): along every event run starting from the initial
state in which the platform delivers ratios in `[0, 1]`, the stored
`baselineThreshold` of every tracked element lies in `(0, 1]` — in
particular it is never exactly `0` (an observed `0.0` on a first reading
is replaced by the epsilon `1e-7`); it starts at `1.0` and a refresh that
installs a subscription resets it to `1.0`, while a zero-size refresh
leaves it unchanged. -/
theorem baseline_threshold_in_unit_interval (r0 : Rect) (evs : List VOEvent)
    (st : VOState) (hv : ∀ ev ∈ evs, validEvent ev)
    (hrun : runEvents (initState r0) evs = some st) : ThresholdInv st :=
  runEvents_inv (by intro p hp; simp [initState] at hp) hv hrun

/-- Witness for C7 on a concrete run. -/
theorem baseline_threshold_in_unit_interval_witness :
    ThresholdInv (observe (initState { left := 0, top := 0, width := 100, height := 100 }) 3) :=
  baseline_threshold_in_unit_interval
    { left := 0, top := 0, width := 100, height := 100 }
    [VOEvent.observeEv 3] _
    (by intro ev hev; rw [List.mem_singleton] at hev; subst hev; trivial)
    rfl

/-- Counterexample to C8 as stated: the insets are not always
non-negative — an element whose document-relative x is `-1` yields a left
inset of `-1`. -/
theorem insets_nonneg_counterexample :
    (computeInsets 800 600 (-1) 5 10 10).left < 0 := by
  show ⌊(-1 : ℚ)⌋ < 0
  norm_num

/-- Claim C8 (amended): GeometryTranslator produces four integer insets,
each floored independently per edge; they are all non-negative whenever
the element's document-relative box lies inside the root's extent, and
the region obtained by insetting the root by exactly these amounts always
contains the element's rectangle, each edge overshooting by strictly less
than one pixel. -/
theorem insets_floored_region_contains_box (rootW rootH x y w h : ℚ) :
    (((computeInsets rootW rootH x y w h).left : ℚ) ≤ x ∧
     x - 1 < ((computeInsets rootW rootH x y w h).left : ℚ) ∧
     ((computeInsets rootW rootH x y w h).top : ℚ) ≤ y ∧
     y - 1 < ((computeInsets rootW rootH x y w h).top : ℚ) ∧
     x + w ≤ rootW - ((computeInsets rootW rootH x y w h).right : ℚ) ∧
     rootW - ((computeInsets rootW rootH x y w h).right : ℚ) < x + w + 1 ∧
     y + h ≤ rootH - ((computeInsets rootW rootH x y w h).bottom : ℚ) ∧
     rootH - ((computeInsets rootW rootH x y w h).bottom : ℚ) < y + h + 1) ∧
    (0 ≤ x → 0 ≤ y → x + w ≤ rootW → y + h ≤ rootH →
      0 ≤ (computeInsets rootW rootH x y w h).top ∧
      0 ≤ (computeInsets rootW rootH x y w h).right ∧
      0 ≤ (computeInsets rootW rootH x y w h).bottom ∧
      0 ≤ (computeInsets rootW rootH x y w h).left) := by
  simp only [computeInsets]
  constructor
  · refine ⟨?_, ?_, ?_, ?_, ?_, ?_, ?_, ?_⟩
    · exact Int.floor_le x
    · have hlt := Int.lt_floor_add_one x
      linarith
    · exact Int.floor_le y
    · have hlt := Int.lt_floor_add_one y
      linarith
    · have hle := Int.floor_le (rootW - (x + w))
      linarith
    · have hlt := Int.lt_floor_add_one (rootW - (x + w))
      linarith
    · have hle := Int.floor_le (rootH - (y + h))
      linarith
    · have hlt := Int.lt_floor_add_one (rootH - (y + h))
      linarith
  · intro hx hy hxw hyh
    refine ⟨?_, ?_, ?_, ?_⟩
    · exact Int.floor_nonneg.mpr hy
    · exact Int.floor_nonneg.mpr (by linarith)
    · exact Int.floor_nonneg.mpr (by linarith)
    · exact Int.floor_nonneg.mpr hx

/-- Witness for C8: the unconditional containment bounds at a concrete
rectangle, and the non-negativity part with its in-extent hypotheses
discharged at the same input. -/
theorem insets_floored_region_contains_box_witness :
    (((computeInsets 800 600 10 20 30 40).left : ℚ) ≤ 10 ∧
     (10 : ℚ) - 1 < ((computeInsets 800 600 10 20 30 40).left : ℚ) ∧
     ((computeInsets 800 600 10 20 30 40).top : ℚ) ≤ 20 ∧
     (20 : ℚ) - 1 < ((computeInsets 800 600 10 20 30 40).top : ℚ) ∧
     (10 : ℚ) + 30 ≤ 800 - ((computeInsets 800 600 10 20 30 40).right : ℚ) ∧
     (800 : ℚ) - ((computeInsets 800 600 10 20 30 40).right : ℚ) < 10 + 30 + 1 ∧
     (20 : ℚ) + 40 ≤ 600 - ((computeInsets 800 600 10 20 30 40).bottom : ℚ) ∧
     (600 : ℚ) - ((computeInsets 800 600 10 20 30 40).bottom : ℚ) < 20 + 40 + 1) ∧
    (0 ≤ (computeInsets 800 600 10 20 30 40).top ∧
     0 ≤ (computeInsets 800 600 10 20 30 40).right ∧
     0 ≤ (computeInsets 800 600 10 20 30 40).bottom ∧
     0 ≤ (computeInsets 800 600 10 20 30 40).left) :=
  ⟨(insets_floored_region_contains_box 800 600 10 20 30 40).1,
   (insets_floored_region_contains_box 800 600 10 20 30 40).2
     (by norm_num) (by norm_num) (by norm_num) (by norm_num)⟩

/-- Claim C10: the cleanup function returned by `vizObserver` is
idempotent — the first call releases the ResizeObserver registration and
the IntersectionObserver, detaches the abort-signal listener, removes the
refresh handler from the active-observer set, and disables the shared
root-resize handling when that set becomes empty; every subsequent call
leaves all state unchanged. -/
theorem cleanup_idempotent (g : JsGlobal) (s : JsInstance)
    (hc : g.activeObservers.count s.id ≤ 1) :
    jsAbort (jsAbort g s).1 (jsAbort g s).2 = jsAbort g s ∧
    (s.released = false →
      (jsAbort g s).2.released = true ∧
      (jsAbort g s).2.roLive = false ∧
      (jsAbort g s).2.closure = none ∧
      (jsAbort g s).2.signalAttached = false ∧
      s.id ∉ (jsAbort g s).1.activeObservers ∧
      ((jsAbort g s).1.activeObservers = [] →
        (jsAbort g s).1.globalResizeEnabled = false)) := by
  by_cases hrel : s.released = true
  · refine ⟨by simp [jsAbort, hrel], ?_⟩
    intro hfalse
    rw [hrel] at hfalse
    cases hfalse
  · have hrel2 : s.released = false := by
      cases h : s.released
      · rfl
      · exact absurd h hrel
    have hner : s.id ∉ g.activeObservers.erase s.id := by
      intro hmem
      have hcnt := List.count_erase_self s.id g.activeObservers
      have hpos := List.count_pos_iff.mpr hmem
      omega
    refine ⟨by simp [jsAbort, hrel2], ?_⟩
    intro _
    refine ⟨?_, ?_, ?_, ?_, ?_, ?_⟩
    · simp [jsAbort, hrel2]
    · simp [jsAbort, hrel2]
    · simp [jsAbort, hrel2]
    · simp [jsAbort, hrel2]
    · simpa [jsAbort, hrel2] using hner
    · simp only [jsAbort, hrel2, Bool.false_eq_true, if_false]
      intro hnil
      simp [hnil]

/-- Witness for C10 on a concrete global/instance pair. -/
theorem cleanup_idempotent_witness :
    jsAbort
      (jsAbort { activeObservers := [11], globalResizeEnabled := true }
        { id := 11, released := false, signalAttached := true, roLive := true,
          closure := none }).1
      (jsAbort { activeObservers := [11], globalResizeEnabled := true }
        { id := 11, released := false, signalAttached := true, roLive := true,
          closure := none }).2 =
      jsAbort { activeObservers := [11], globalResizeEnabled := true }
        { id := 11, released := false, signalAttached := true, roLive := true,
          closure := none } ∧
    (false = false →
      (jsAbort { activeObservers := [11], globalResizeEnabled := true }
        { id := 11, released := false, signalAttached := true, roLive := true,
          closure := none }).2.released = true ∧
      (jsAbort { activeObservers := [11], globalResizeEnabled := true }
        { id := 11, released := false, signalAttached := true, roLive := true,
          closure := none }).2.roLive = false ∧
      (jsAbort { activeObservers := [11], globalResizeEnabled := true }
        { id := 11, released := false, signalAttached := true, roLive := true,
          closure := none }).2.closure = none ∧
      (jsAbort { activeObservers := [11], globalResizeEnabled := true }
        { id := 11, released := false, signalAttached := true, roLive := true,
          closure := none }).2.signalAttached = false ∧
      (11 : Nat) ∉ (jsAbort { activeObservers := [11], globalResizeEnabled := true }
        { id := 11, released := false, signalAttached := true, roLive := true,
          closure := none }).1.activeObservers ∧
      ((jsAbort { activeObservers := [11], globalResizeEnabled := true }
        { id := 11, released := false, signalAttached := true, roLive := true,
          closure := none }).1.activeObservers = [] →
        (jsAbort { activeObservers := [11], globalResizeEnabled := true }
          { id := 11, released := false, signalAttached := true, roLive := true,
            closure := none }).1.globalResizeEnabled = false)) :=
  cleanup_idempotent { activeObservers := [11], globalResizeEnabled := true }
    { id := 11, released := false, signalAttached := true, roLive := true,
      closure := none }
    (by decide)

end VizObserver
